import Mathlib

/-!
Shallow embedding of the Fraud Finder front-end analysis flow: the
`MainScreen` component with its `handleAnalyze` submit handler, the
screen-selection conditionals, the result-rendering branches (error
panel, result panel, red-flag tile grid, risk-bar clamping) and the
form-control disabling, modelled as plain executable Lean definitions,
followed by theorems about them.
-/

namespace FraudFinder

/-- The JSON payload that `handleAnalyze` posts to `/api/analyze`. -/
structure AnalysisRequest where
  job_text : String
  job_url : String
  company_name : String
  analysis_type : String
  job_title : String
deriving DecidableEq, Repr

/-- JavaScript `input.trim()`: drop leading and trailing whitespace.
Modelled structurally on the character list so the kernel can evaluate it. -/
def jsTrim (s : String) : String :=
  String.mk (((s.data.dropWhile Char.isWhitespace).reverse.dropWhile Char.isWhitespace).reverse)

/-- ASCII lower-casing of a string, character by character. -/
def jsToLower (s : String) : String := String.mk (s.data.map Char.toLower)

/-- The URL test of `handleAnalyze`: the regex `^https?://` with the
case-insensitive flag accepts exactly the strings that begin with
`http://` or `https://` up to ASCII case.  The code applies it to the
trimmed input (`/^https?:\/\//i.test(input.trim())`). -/
def isUrlInput (s : String) : Bool :=
  let l := (jsToLower s).data
  l.take 7 = "http://".data || l.take 8 = "https://".data

/-- The local validation message stored when the input trims to empty. -/
def validationMessage : String := "Please enter a job posting URL or description."

/-- The fallback error text `data.error || "Failed to analyze. Please try again."`
uses when the failing response carries no truthy error field. -/
def fallbackMessage : String := "Failed to analyze. Please try again."

/-- The payload object literal of `handleAnalyze`, built from the trimmed
input and the current analysis type. -/
def mkPayload (trimmed analysisType : String) : AnalysisRequest :=
  { job_text := if isUrlInput trimmed then "" else trimmed,
    job_url := if isUrlInput trimmed then trimmed else "",
    company_name := "",
    analysis_type := analysisType,
    job_title := "" }

/-- What the synchronous head of `handleAnalyze` decides: either the
validation short-circuit (no network call) or a request to send. -/
inductive SubmitAction where
  | validationError (msg : String)
  | sendRequest (payload : AnalysisRequest)
deriving DecidableEq, Repr

/-- The head of `handleAnalyze`: `if (!input.trim()) { setResult({error: ...}); return; }`
followed by payload construction. -/
def handleAnalyzeStart (input analysisType : String) : SubmitAction :=
  if jsTrim input = "" then .validationError validationMessage
  else .sendRequest (mkPayload (jsTrim input) analysisType)

/-- The `analysis` sub-object of the response, as the rendering reads it.
`red_flags` is `some l` when the field is an array of strings and `none`
when it is absent or not an array (the `Array.isArray` check). -/
structure Analysis where
  red_flags : Option (List String)
  llm_analysis : String
deriving DecidableEq, Repr

/-- The parsed JSON response body, shaped by the fields the component reads.
Optional fields model absent JSON members. -/
structure ResponseData where
  error : Option String
  risk_score : Option ℚ
  risk_level : Option String
  risk_color : Option String
  verdict : Option String
  is_scam : Bool
  analysis : Option Analysis
  auto_reply : Bool
deriving DecidableEq, Repr

/-- JavaScript truthiness of an optional string field: absent and the
empty string are falsy, every other string is truthy. -/
def errTruthy : Option String → Bool
  | none => false
  | some s => s ≠ ""

/-- What `setResult` stores: either the `{ error: msg }` object built on a
failure path, or the parsed response data stored verbatim on success. -/
inductive StoredResult where
  | errorResult (msg : String)
  | dataResult (data : ResponseData)
deriving DecidableEq, Repr

/-- How the awaited fetch settles: a response with an `ok` flag and parsed
body, or a rejection (network failure / JSON parse failure) whose
`err.message` string reaches the catch block. -/
inductive FetchOutcome where
  | response (ok : Bool) (data : ResponseData)
  | rejection (message : String)
deriving DecidableEq, Repr

/-- The try/catch tail of `handleAnalyze`:
`if (!response.ok || data.error) setResult({error: data.error || fallback}) else setResult(data)`
and `catch (err) { setResult({error: err.message}) }`. -/
def handleFetchOutcome : FetchOutcome → StoredResult
  | .rejection msg => .errorResult msg
  | .response ok data =>
    if !ok || errTruthy data.error then
      .errorResult (if errTruthy data.error then data.error.getD fallbackMessage else fallbackMessage)
    else .dataResult data

/-- Whether the stored result came from a failure path (an `{error: ...}` object). -/
def isFailureStored : StoredResult → Bool
  | .errorResult _ => true
  | .dataResult _ => false

/-- The `result.error` member as the rendering conditionals read it. -/
def resultErrorField : StoredResult → Option String
  | .errorResult msg => some msg
  | .dataResult data => data.error

/-- Which result block renders under the form. -/
inductive RenderPath where
  | errorPanel (msg : String)
  | resultPanel (r : StoredResult)
  | noPanel
deriving DecidableEq, Repr

/-- The rendering conditional chain:
`result && result.error ? errorPanel : result && typeof result === 'object' ? resultPanel : ...`.
Every stored result is an object here, so the string/raw branch is dead. -/
def renderResult : Option StoredResult → RenderPath
  | none => .noPanel
  | some r =>
    if errTruthy (resultErrorField r) then .errorPanel ((resultErrorField r).getD "")
    else .resultPanel r

/-- The red-flag tile list: `red_flags.slice(0, 8)` when it is an array,
`[]` otherwise, then `while (flags.length < 8) flags.push('No flag')`. -/
def redFlagTiles (rf : Option (List String)) : List String :=
  let flags := match rf with | some l => l.take 8 | none => []
  flags ++ List.replicate (8 - flags.length) "No flag"

/-- The tile grid rendered inside the result panel: present exactly when
`result.analysis` is truthy (the `{result.analysis && ...}` guard). -/
def renderedTiles : StoredResult → Option (List String)
  | .errorResult _ => none
  | .dataResult data => data.analysis.map fun a => redFlagTiles a.red_flags

/-- Width percentage of the risk-bar fill:
`Math.max(0, Math.min(100, result.risk_score))`. -/
def riskBarFillWidth (risk_score : ℚ) : ℚ := max 0 (min 100 risk_score)

/-- Left percentage of the score marker:
`Math.max(0, Math.min(100, result.risk_score))`. -/
def riskMarkerLeft (risk_score : ℚ) : ℚ := max 0 (min 100 risk_score)

/-- Which screen `MainScreen` returns. -/
inductive Screen where
  | signUpPage
  | loginScreen
  | profilePage
  | mainContent
deriving DecidableEq, Repr

/-- The early-return chain of `MainScreen`:
`if (showSignUp) return <SignUpPage/>; if (showLogin) return <LoginScreen/>;
if (showProfile) return <ProfilePage/>;` else the main content. -/
def selectScreen (showSignUp showLogin showProfile : Bool) : Screen :=
  if showSignUp then .signUpPage
  else if showLogin then .loginScreen
  else if showProfile then .profilePage
  else .mainContent

/-- The disabled attributes and the login notice of the analysis form. -/
structure FormControls where
  textareaDisabled : Bool
  quickRadioDisabled : Bool
  detailedRadioDisabled : Bool
  submitDisabled : Bool
  loginNotice : Option String
deriving DecidableEq, Repr

/-- The notice shown under the form while no user is logged in. -/
def loginNoticeText : String := "Please log in to analyze job postings."

/-- The control attributes as rendered: textarea and radios carry
`disabled={!userName}`, the submit button `disabled={loading || !userName}`,
and the notice renders under `{!userName && ...}`. -/
def renderControls (userName : String) (loading : Bool) : FormControls :=
  { textareaDisabled := userName == "",
    quickRadioDisabled := userName == "",
    detailedRadioDisabled := userName == "",
    submitDisabled := loading || userName == "",
    loginNotice := if userName == "" then some loginNoticeText else none }

/-- The component state of `MainScreen` relevant to the analysis flow,
plus `pending`, the model of the one awaited fetch (the suspended
request between `setLoading(true)` and the `finally` block). -/
structure UIState where
  userName : String
  input : String
  analysisType : String
  result : Option StoredResult
  loading : Bool
  pending : Option AnalysisRequest
deriving DecidableEq, Repr

/-- The `useState` initial values: empty user and input, type "quick",
no result, not loading, no outstanding request. -/
def initialState : UIState :=
  { userName := "", input := "", analysisType := "quick",
    result := none, loading := false, pending := none }

/-- The user/environment events the component reacts to.  The two radio
buttons are the only writers of `analysisType`; `submit` is a click on
the form's submit button; `fetchSettled` is the awaited fetch settling. -/
inductive Event where
  | authSuccess (name : String)
  | setInput (s : String)
  | selectQuick
  | selectDetailed
  | submit
  | fetchSettled (outcome : FetchOutcome)
deriving DecidableEq, Repr

/-- One event step.  Returns the next state and the network request the
step issues, if any.  Disabled controls (textarea and radios when
`!userName`, the submit button when `loading || !userName`) fire no
handler, so those events leave the state unchanged; the radio handlers
additionally guard with `userName && setAnalysisType(...)`. -/
def step (s : UIState) : Event → UIState × Option AnalysisRequest
  | .authSuccess name => ({ s with userName := name }, none)
  | .setInput str =>
      if s.userName == "" then (s, none) else ({ s with input := str }, none)
  | .selectQuick =>
      if s.userName == "" then (s, none)
      else ({ s with analysisType := "quick" }, none)
  | .selectDetailed =>
      if s.userName == "" then (s, none)
      else ({ s with analysisType := "detailed" }, none)
  | .submit =>
      if s.loading || s.userName == "" then (s, none)
      else
        match handleAnalyzeStart s.input s.analysisType with
        | .validationError msg => ({ s with result := some (.errorResult msg) }, none)
        | .sendRequest payload =>
            ({ s with result := none, loading := true, pending := some payload }, some payload)
  | .fetchSettled outcome =>
      match s.pending with
      | none => (s, none)
      | some _ =>
          ({ s with result := some (handleFetchOutcome outcome),
                    loading := false, pending := none }, none)

/-- Run a list of events from a state. -/
def runFrom (s : UIState) : List Event → UIState
  | [] => s
  | e :: rest => runFrom (step s e).1 rest

/-- Run a list of events from the initial state. -/
def run (evs : List Event) : UIState := runFrom initialState evs

/-- The network requests issued along a list of events from a state. -/
def requestsFrom (s : UIState) : List Event → List AnalysisRequest
  | [] => []
  | e :: rest => ((step s e).2).toList ++ requestsFrom (step s e).1 rest

/-- The network requests issued along a list of events from the initial state. -/
def runRequests (evs : List Event) : List AnalysisRequest := requestsFrom initialState evs

/-- Whether an event is one of the two analysis-type radio changes. -/
def isSelectEvent : Event → Bool
  | .selectQuick => true
  | .selectDetailed => true
  | _ => false

/-- Whether an event is the auth-success callback. -/
def isAuthEvent : Event → Bool
  | .authSuccess _ => true
  | _ => false

/-- No analysis-type radio change occurs in the trace. -/
def noSelectEvent (evs : List Event) : Bool := evs.all fun e => !isSelectEvent e

/-- No auth-success callback fires in the trace. -/
def noAuthEvent (evs : List Event) : Bool := evs.all fun e => !isAuthEvent e

/-- A logged-in state with one request outstanding. -/
def inflightState : UIState :=
  { userName := "u", input := "hello", analysisType := "quick",
    result := none, loading := true, pending := some (mkPayload "hello" "quick") }

/-- A response body carrying both a non-empty error field and a risk score. -/
def errorWithScoreData : ResponseData :=
  { error := some "boom", risk_score := some 42, risk_level := some "High",
    risk_color := none, verdict := some "Scam", is_scam := true,
    analysis := none, auto_reply := false }

/-- A successful response body whose analysis carries three red flags. -/
def threeFlagsData : ResponseData :=
  { error := none, risk_score := some 10, risk_level := some "Low",
    risk_color := none, verdict := some "Legit", is_scam := false,
    analysis := some { red_flags := some ["a", "b", "c"], llm_analysis := "ok" },
    auto_reply := false }

theorem step_loading_pending (s : UIState) (e : Event)
    (h : s.loading = s.pending.isSome) :
    ((step s e).1).loading = ((step s e).1).pending.isSome := by
  cases e <;> simp only [step] <;> (repeat' split) <;> simp_all

theorem runFrom_loading_pending (evs : List Event) : ∀ s : UIState,
    s.loading = s.pending.isSome →
    (runFrom s evs).loading = ((runFrom s evs).pending).isSome := by
  induction evs with
  | nil => intro s h; exact h
  | cons e rest ih => intro s h; exact ih _ (step_loading_pending s e h)

theorem submit_noop_of_loading (s : UIState) (h : s.loading = true) :
    step s .submit = (s, none) := by
  simp [step, h]

theorem fetchSettled_resets (s : UIState) (o : FetchOutcome) (h : s.pending.isSome = true) :
    ((step s (.fetchSettled o)).1).loading = false ∧
    ((step s (.fetchSettled o)).1).pending = none := by
  cases hp : s.pending with
  | none => rw [hp] at h; simp at h
  | some p => simp [step, hp]

theorem step_request_spec (s : UIState) (e : Event) (r : AnalysisRequest)
    (h : (step s e).2 = some r) :
    r = mkPayload (jsTrim s.input) s.analysisType := by
  cases e with
  | authSuccess name => simp [step] at h
  | setInput str => simp only [step] at h; split at h <;> simp at h
  | selectQuick => simp only [step] at h; split at h <;> simp at h
  | selectDetailed => simp only [step] at h; split at h <;> simp at h
  | fetchSettled o => simp only [step] at h; split at h <;> simp at h
  | submit =>
      simp only [step] at h
      split at h
      · simp at h
      · rcases hstart : handleAnalyzeStart s.input s.analysisType with msg | payload
        · rw [hstart] at h; simp at h
        · rw [hstart] at h
          simp only [Option.some.injEq] at h
          subst h
          unfold handleAnalyzeStart at hstart
          split at hstart
          · simp at hstart
          · simp only [SubmitAction.sendRequest.injEq] at hstart
            exact hstart.symm

theorem step_request_none_of_userName (s : UIState) (e : Event) (h : s.userName = "") :
    (step s e).2 = none := by
  cases e <;> simp only [step, h] <;> (repeat' split) <;> simp_all

theorem step_userName_noauth (s : UIState) (e : Event) (h : isAuthEvent e = false) :
    ((step s e).1).userName = s.userName := by
  cases e <;> simp_all [isAuthEvent, step] <;> (repeat' split) <;> simp_all

theorem step_analysisType_mem (s : UIState) (e : Event) :
    ((step s e).1).analysisType = s.analysisType ∨
    ((step s e).1).analysisType = "quick" ∨
    ((step s e).1).analysisType = "detailed" := by
  cases e <;> simp only [step] <;> (repeat' split) <;> simp_all

theorem step_analysisType_noselect (s : UIState) (e : Event) (h : isSelectEvent e = false) :
    ((step s e).1).analysisType = s.analysisType := by
  cases e <;> simp_all [isSelectEvent, step] <;> (repeat' split) <;> simp_all

theorem mem_requestsFrom_head (s : UIState) (e : Event) (r : AnalysisRequest)
    (h : r ∈ ((step s e).2).toList) : (step s e).2 = some r := by
  cases hrq : (step s e).2 with
  | none => rw [hrq] at h; simp [Option.toList] at h
  | some p => rw [hrq] at h; simp [Option.toList] at h; rw [h]

theorem requestsFrom_reserved (evs : List Event) : ∀ (s : UIState) (r : AnalysisRequest),
    r ∈ requestsFrom s evs → r.company_name = "" ∧ r.job_title = "" := by
  induction evs with
  | nil => intro s r hm; simp [requestsFrom] at hm
  | cons e rest ih =>
      intro s r hm
      unfold requestsFrom at hm
      rcases List.mem_append.mp hm with h1 | h2
      · have := step_request_spec s e r (mem_requestsFrom_head s e r h1)
        subst this
        exact ⟨rfl, rfl⟩
      · exact ih _ r h2

theorem requestsFrom_analysis_type (evs : List Event) : ∀ (s : UIState) (r : AnalysisRequest),
    (s.analysisType = "quick" ∨ s.analysisType = "detailed") →
    r ∈ requestsFrom s evs →
    (r.analysis_type = "quick" ∨ r.analysis_type = "detailed") := by
  induction evs with
  | nil => intro s r _ hm; simp [requestsFrom] at hm
  | cons e rest ih =>
      intro s r hinv hm
      unfold requestsFrom at hm
      rcases List.mem_append.mp hm with h1 | h2
      · have := step_request_spec s e r (mem_requestsFrom_head s e r h1)
        subst this
        simpa [mkPayload] using hinv
      · refine ih _ r ?_ h2
        rcases step_analysisType_mem s e with h | h | h
        · rw [h]; exact hinv
        · rw [h]; exact Or.inl rfl
        · rw [h]; exact Or.inr rfl

theorem requestsFrom_noselect (evs : List Event) : ∀ (s : UIState) (r : AnalysisRequest),
    noSelectEvent evs = true → r ∈ requestsFrom s evs →
    r.analysis_type = s.analysisType := by
  induction evs with
  | nil => intro s r _ hm; simp [requestsFrom] at hm
  | cons e rest ih =>
      intro s r hns hm
      simp only [noSelectEvent, List.all_cons, Bool.and_eq_true, Bool.not_eq_true'] at hns
      unfold requestsFrom at hm
      rcases List.mem_append.mp hm with h1 | h2
      · have := step_request_spec s e r (mem_requestsFrom_head s e r h1)
        subst this
        rfl
      · rw [ih _ r hns.2 h2, step_analysisType_noselect s e hns.1]

theorem runFrom_noselect (evs : List Event) : ∀ s : UIState,
    noSelectEvent evs = true → (runFrom s evs).analysisType = s.analysisType := by
  induction evs with
  | nil => intro s _; rfl
  | cons e rest ih =>
      intro s hns
      simp only [noSelectEvent, List.all_cons, Bool.and_eq_true, Bool.not_eq_true'] at hns
      rw [runFrom, ih _ hns.2, step_analysisType_noselect s e hns.1]

theorem requestsFrom_noauth (evs : List Event) : ∀ s : UIState,
    noAuthEvent evs = true → s.userName = "" → requestsFrom s evs = [] := by
  induction evs with
  | nil => intro s _ _; rfl
  | cons e rest ih =>
      intro s hna hu
      simp only [noAuthEvent, List.all_cons, Bool.and_eq_true, Bool.not_eq_true'] at hna
      unfold requestsFrom
      rw [step_request_none_of_userName s e hu]
      have hu2 : ((step s e).1).userName = "" := by
        rw [step_userName_noauth s e hna.1, hu]
      simp [Option.toList, ih _ hna.2 hu2]

/-- C1 (counterexample): the input " http://x" does not begin with the
case-insensitive prefix http:// or https:// and is non-empty, yet the
submitted request has empty job_text and non-empty job_url — refuting the
claim's clause that every other non-empty input yields non-empty job_text
and empty job_url.  The code classifies the trimmed input, not the raw one. -/
theorem c1_counterexample :
    isUrlInput " http://x" = false ∧ " http://x" ≠ "" ∧
    handleAnalyzeStart " http://x" "quick" =
      .sendRequest { job_text := "", job_url := "http://x", company_name := "",
                     analysis_type := "quick", job_title := "" } :=
  ⟨by decide, by decide, by decide⟩

/-- C1 (amended): for every input whose trimmed form begins with the
case-insensitive prefix http:// or https://, the submitted request has
job_url equal to the trimmed input (hence non-empty) and empty job_text;
for every other input that is non-empty after trimming, job_text equals
the trimmed input and job_url is empty; hence exactly one of job_text and
job_url is non-empty per submission. -/
theorem c1_url_text_routing (input analysisType : String) (h : jsTrim input ≠ "") :
    ∃ p, handleAnalyzeStart input analysisType = .sendRequest p ∧
      (isUrlInput (jsTrim input) = true → p.job_url = jsTrim input ∧ p.job_text = "") ∧
      (isUrlInput (jsTrim input) = false → p.job_text = jsTrim input ∧ p.job_url = "") ∧
      ((p.job_text = "" ∧ p.job_url ≠ "") ∨ (p.job_text ≠ "" ∧ p.job_url = "")) := by
  refine ⟨mkPayload (jsTrim input) analysisType, ?_, ?_, ?_, ?_⟩
  · simp [handleAnalyzeStart, h]
  · intro hu; simp [mkPayload, hu]
  · intro hu; simp [mkPayload, hu]
  · by_cases hu : isUrlInput (jsTrim input) = true
    · exact Or.inl (by simp [mkPayload, hu, h])
    · exact Or.inr (by simp [mkPayload, Bool.eq_false_iff.mpr hu, h])

/-- C1 witness: the amended theorem instantiated at the mixed-case URL
input "HTTP://x". -/
theorem c1_witness :
    jsTrim "HTTP://x" ≠ "" ∧
    ∃ p, handleAnalyzeStart "HTTP://x" "quick" = .sendRequest p ∧
      (isUrlInput (jsTrim "HTTP://x") = true → p.job_url = jsTrim "HTTP://x" ∧ p.job_text = "") ∧
      (isUrlInput (jsTrim "HTTP://x") = false → p.job_text = jsTrim "HTTP://x" ∧ p.job_url = "") ∧
      ((p.job_text = "" ∧ p.job_url ≠ "") ∨ (p.job_text ≠ "" ∧ p.job_url = "")) :=
  ⟨by decide, c1_url_text_routing "HTTP://x" "quick" (by decide)⟩

/-- C2: an input that is empty or whitespace-only (it trims to empty) takes
the validation branch: the stored result is the fixed message and no
network request is issued — in particular a submit click on such a state
issues no request; any input that is non-empty after trimming does not take
the validation branch and instead produces a request to send. -/
theorem c2_empty_input_validation (input analysisType : String) (s : UIState) :
    (jsTrim input = "" → handleAnalyzeStart input analysisType =
      .validationError "Please enter a job posting URL or description.") ∧
    (jsTrim input ≠ "" → ∃ p, handleAnalyzeStart input analysisType = .sendRequest p) ∧
    (jsTrim s.input = "" → (step s .submit).2 = none) ∧
    (jsTrim s.input = "" → s.loading = false → s.userName ≠ "" →
      (step s .submit).1.result = some (.errorResult validationMessage)) := by
  refine ⟨?_, ?_, ?_, ?_⟩
  · intro h; simp [handleAnalyzeStart, h, validationMessage]
  · intro h; exact ⟨mkPayload (jsTrim input) analysisType, by simp [handleAnalyzeStart, h]⟩
  · intro h
    simp only [step]
    split
    · rfl
    · simp [handleAnalyzeStart, h]
  · intro h hl hu
    simp [step, hl, hu, handleAnalyzeStart, h]

/-- C2 witness: the theorem instantiated at the whitespace-only input and a
logged-in idle state holding it. -/
theorem c2_witness :
    jsTrim "   " = "" ∧
    handleAnalyzeStart "   " "quick" =
      .validationError "Please enter a job posting URL or description." ∧
    (step { initialState with userName := "u", input := "   " } .submit).1.result =
      some (.errorResult validationMessage) := by
  have h := c2_empty_input_validation "   " "quick" { initialState with userName := "u", input := "   " }
  exact ⟨by decide, h.1 (by decide), h.2.2.2 (by decide) rfl (by decide)⟩

/-- C3: a fetch outcome is stored as a failure object exactly when the
response is non-ok or its body carries a truthy (non-empty) error field, or
the call rejects; every failing response stores a non-empty error message
and renders the single error panel, a rejection with its (non-empty)
message likewise, and a truthy error field forces the failure path
regardless of the other fields present. -/
theorem c3_failure_classification :
    (∀ ok data, isFailureStored (handleFetchOutcome (.response ok data)) =
      (!ok || errTruthy data.error)) ∧
    (∀ msg, isFailureStored (handleFetchOutcome (.rejection msg)) = true) ∧
    (∀ ok data m, handleFetchOutcome (.response ok data) = .errorResult m →
      m ≠ "" ∧ renderResult (some (.errorResult m)) = .errorPanel m) ∧
    (∀ msg, msg ≠ "" → handleFetchOutcome (.rejection msg) = .errorResult msg ∧
      renderResult (some (.errorResult msg)) = .errorPanel msg) ∧
    (∀ ok data, errTruthy data.error = true →
      isFailureStored (handleFetchOutcome (.response ok data)) = true) := by
  refine ⟨?_, fun msg => rfl, ?_, ?_, ?_⟩
  · intro ok data
    simp only [handleFetchOutcome]
    split
    · rename_i hc; simp [isFailureStored, hc]
    · rename_i hc; simp only [Bool.not_eq_true] at hc; simp [isFailureStored, hc]
  · intro ok data m hm
    simp only [handleFetchOutcome] at hm
    split at hm
    · rename_i hc
      simp only [StoredResult.errorResult.injEq] at hm
      subst hm
      constructor
      · split
        · rename_i ht
          cases he : data.error with
          | none => rw [he] at ht; simp [errTruthy] at ht
          | some sErr =>
              rw [he] at ht
              simp only [errTruthy, decide_eq_true_eq] at ht
              simpa [Option.getD] using ht
        · simp [fallbackMessage]
      · split
        · rename_i ht
          cases he : data.error with
          | none => rw [he] at ht; simp [errTruthy] at ht
          | some sErr =>
              rw [he] at ht
              simp only [errTruthy, decide_eq_true_eq] at ht
              simp [renderResult, resultErrorField, errTruthy, ht, Option.getD]
        · simp [renderResult, resultErrorField, errTruthy, fallbackMessage]
    · simp at hm
  · intro msg hmsg
    exact ⟨rfl, by simp [renderResult, resultErrorField, errTruthy, hmsg]⟩
  · intro ok data ht
    simp [handleFetchOutcome, ht, isFailureStored]

/-- C3 witness: a 2xx response whose body carries both error "boom" and a
risk score is stored as the failure object and renders the error panel. -/
theorem c3_witness :
    "boom" ≠ "" ∧ renderResult (some (.errorResult "boom")) = .errorPanel "boom" :=
  c3_failure_classification.2.2.1 true errorWithScoreData "boom" (by decide)

/-- C4: for a stored successful response whose analysis field is present
and whose red_flags field is the list l, the rendered tile list is exactly
the first min(|l|,8) entries of l in order followed by the placeholder
"No flag" repeated until 8 tiles exist; it always has length 8, and entries
of l beyond the first 8 are dropped. -/
theorem c4_red_flag_tiles (data : ResponseData) (a : Analysis) (l : List String)
    (ha : data.analysis = some a) (hl : a.red_flags = some l) :
    renderedTiles (.dataResult data) =
      some (l.take 8 ++ List.replicate (8 - min l.length 8) "No flag") ∧
    (l.take 8 ++ List.replicate (8 - min l.length 8) "No flag").length = 8 ∧
    (l.take 8 ++ List.replicate (8 - min l.length 8) "No flag").take (min l.length 8) = l.take 8 ∧
    (l.take 8 ++ List.replicate (8 - min l.length 8) "No flag").drop (min l.length 8) =
      List.replicate (8 - min l.length 8) "No flag" := by
  have hlen : (l.take 8).length = min l.length 8 := by
    rw [List.length_take, Nat.min_comm]
  refine ⟨?_, ?_, ?_, ?_⟩
  · simp only [renderedTiles, ha, Option.map_some']
    simp only [redFlagTiles, hl, hlen]
  · rw [List.length_append, hlen, List.length_replicate]
    omega
  · rw [← hlen, List.take_left]
  · rw [← hlen, List.drop_left]

/-- C4 witness: a response with three red flags renders the three flags
followed by five "No flag" placeholder tiles. -/
theorem c4_witness :
    renderedTiles (.dataResult threeFlagsData) =
      some ["a", "b", "c", "No flag", "No flag", "No flag", "No flag", "No flag"] := by
  have h := c4_red_flag_tiles threeFlagsData
    { red_flags := some ["a", "b", "c"], llm_analysis := "ok" } ["a", "b", "c"] rfl rfl
  simpa using h.1

/-- C5: while a request is outstanding (loading is true) a further submit is
a no-op that changes no state and issues no request, so no second request
fires before the first settles; on every trace from the initial state the
loading flag is true exactly when one request is outstanding; and the
settling of the fetch — resolution or rejection alike — resets the flag and
clears the outstanding request. -/
theorem c5_single_inflight :
    (∀ s : UIState, s.loading = true → step s .submit = (s, none)) ∧
    (∀ evs : List Event, (run evs).loading = ((run evs).pending).isSome) ∧
    (∀ (s : UIState) (o : FetchOutcome), s.pending.isSome = true →
      ((step s (.fetchSettled o)).1).loading = false ∧
      ((step s (.fetchSettled o)).1).pending = none) := by
  refine ⟨submit_noop_of_loading, ?_, fetchSettled_resets⟩
  intro evs
  exact runFrom_loading_pending evs initialState rfl

/-- C5 witness: the theorem instantiated at an in-flight state and the
empty trace. -/
theorem c5_witness :
    step inflightState .submit = (inflightState, none) ∧
    (run []).loading = ((run []).pending).isSome ∧
    ((step inflightState (.fetchSettled (.rejection "x"))).1).loading = false :=
  ⟨c5_single_inflight.1 inflightState rfl,
   c5_single_inflight.2.1 [],
   (c5_single_inflight.2.2 inflightState (.rejection "x") (by decide)).1⟩

/-- C6: every request issued on any event trace from the initial state has
analysis_type "quick" or "detailed"; on a trace where the analysis-type
selector is never changed the selector still reads the default "quick" and
every issued request carries "quick". -/
theorem c6_analysis_type (evs : List Event) :
    (∀ r ∈ runRequests evs, r.analysis_type = "quick" ∨ r.analysis_type = "detailed") ∧
    (noSelectEvent evs = true → (run evs).analysisType = "quick" ∧
      ∀ r ∈ runRequests evs, r.analysis_type = "quick") := by
  constructor
  · intro r hm
    exact requestsFrom_analysis_type evs initialState r (Or.inl rfl) hm
  · intro hns
    constructor
    · exact runFrom_noselect evs initialState hns
    · intro r hm
      exact requestsFrom_noselect evs initialState r hns hm

/-- C6 witness: the trace log-in, type "hello", submit issues one request
whose analysis_type is the default "quick". -/
theorem c6_witness :
    (run [Event.authSuccess "u", Event.setInput "hello", Event.submit]).analysisType = "quick" ∧
    ({ job_text := "hello", job_url := "", company_name := "",
       analysis_type := "quick", job_title := "" } : AnalysisRequest).analysis_type = "quick" := by
  have h := c6_analysis_type [Event.authSuccess "u", Event.setInput "hello", Event.submit]
  exact ⟨(h.2 (by decide)).1, (h.2 (by decide)).2 _ (by decide)⟩

/-- C7: every request issued on any event trace has empty company_name and
empty job_title, and the input "https://example.com/job/123" with analysis
type "detailed" produces exactly the request of the spec's example. -/
theorem c7_reserved_fields :
    (∀ (evs : List Event) (r : AnalysisRequest), r ∈ runRequests evs →
      r.company_name = "" ∧ r.job_title = "") ∧
    handleAnalyzeStart "https://example.com/job/123" "detailed" =
      .sendRequest { job_text := "", job_url := "https://example.com/job/123",
                     company_name := "", analysis_type := "detailed", job_title := "" } := by
  exact ⟨fun evs r hm => requestsFrom_reserved evs initialState r hm, by decide⟩

/-- C7 witness: the one request of a concrete trace has empty company_name
and job_title. -/
theorem c7_witness :
    ({ job_text := "hello", job_url := "", company_name := "",
       analysis_type := "quick", job_title := "" } : AnalysisRequest).company_name = "" ∧
    ({ job_text := "hello", job_url := "", company_name := "",
       analysis_type := "quick", job_title := "" } : AnalysisRequest).job_title = "" :=
  c7_reserved_fields.1 [Event.authSuccess "u", Event.setInput "hello", Event.submit] _ (by decide)

/-- C8: the screen conditionals are checked in the fixed order sign-up,
then login, then profile; every flag combination renders exactly the screen
of the first true flag (the main content when none is true), in particular
the sign-up screen renders whenever showSignUp is true, regardless of the
other flags. -/
theorem c8_screen_order :
    (∀ b2 b3, selectScreen true b2 b3 = .signUpPage) ∧
    (∀ b3, selectScreen false true b3 = .loginScreen) ∧
    selectScreen false false true = .profilePage ∧
    selectScreen false false false = .mainContent ∧
    selectScreen true true false = .signUpPage := by
  refine ⟨?_, ?_, by decide, by decide, by decide⟩ <;> decide

/-- C9: with no user name set, the textarea, both analysis-type radio
buttons and the submit button all carry the disabled state and the log-in
notice is shown; and no event trace without an auth-success callback issues
any network request from the initial state. -/
theorem c9_auth_gating :
    (∀ loading, renderControls "" loading =
      { textareaDisabled := true, quickRadioDisabled := true,
        detailedRadioDisabled := true, submitDisabled := true,
        loginNotice := some "Please log in to analyze job postings." }) ∧
    (∀ evs : List Event, noAuthEvent evs = true → runRequests evs = []) := by
  constructor
  · intro loading; cases loading <;> rfl
  · intro evs hna
    exact requestsFrom_noauth evs initialState hna rfl

/-- C9 witness: typing and submitting without logging in issues no request,
and the logged-out idle form is fully disabled with the notice shown. -/
theorem c9_witness :
    renderControls "" false =
      { textareaDisabled := true, quickRadioDisabled := true,
        detailedRadioDisabled := true, submitDisabled := true,
        loginNotice := some "Please log in to analyze job postings." } ∧
    runRequests [Event.setInput "x", Event.submit] = [] :=
  ⟨c9_auth_gating.1 false, c9_auth_gating.2 [Event.setInput "x", Event.submit] (by decide)⟩

/-- C10: the risk-bar fill width and the score-marker position agree and
equal max(0, min(100, risk_score)); they lie in [0,100] for every rational
score, coincide with the score when it already lies in [0,100], and clamp
to the nearer boundary when the response's score lies outside. -/
theorem c10_risk_clamp (x : ℚ) :
    0 ≤ riskBarFillWidth x ∧ riskBarFillWidth x ≤ 100 ∧
    riskMarkerLeft x = riskBarFillWidth x ∧
    (x < 0 → riskBarFillWidth x = 0) ∧
    (100 < x → riskBarFillWidth x = 100) ∧
    (0 ≤ x → x ≤ 100 → riskBarFillWidth x = x) := by
  unfold riskBarFillWidth riskMarkerLeft
  refine ⟨le_max_left 0 _, ?_, rfl, ?_, ?_, ?_⟩
  · exact max_le (by norm_num) (min_le_left 100 x)
  · intro h
    have hm : min 100 x ≤ 0 := le_of_lt (lt_of_le_of_lt (min_le_right 100 x) h)
    exact max_eq_left hm
  · intro h
    rw [min_eq_left (le_of_lt h)]
    norm_num
  · intro h1 h2
    rw [min_eq_right h2]
    exact max_eq_right h1

/-- C10 witness: an out-of-range score 150 clamps to 100, and the marker
follows the fill width at the out-of-range score -5. -/
theorem c10_witness :
    riskBarFillWidth 150 = 100 ∧ riskMarkerLeft (-5) = riskBarFillWidth (-5) :=
  ⟨(c10_risk_clamp 150).2.2.2.2.1 (by norm_num), (c10_risk_clamp (-5)).2.2.1⟩

end FraudFinder
